import Mathlib

/-!
A verification development for the hang-analyzer subsystem
(`buildscripts/resmokelib/commands/hang_analyzer.py`,
`buildscripts/resmokelib/hang_analyzer/process_list.py`,
`buildscripts/resmokelib/hang_analyzer/dumper.py`).

The Python functions are shallowly embedded as pure Lean functions.
Ambient effects are made explicit parameters:
  * the enumerated OS process table (the result of `ps.dump_processes`)
    becomes a `List (Nat × String)` argument;
  * `os.getpid()` becomes a `selfPid : Nat` argument;
  * the working-directory contents scanned by `glob.glob` become a
    `List (String × Nat)` of (file name, byte size) pairs;
  * filesystem existence tests and `PATH` lookups used by tool resolution
    become function arguments `fsExists : String → Bool` and
    `pathLookup : String → Option String`.
Python tuples `(pid, pname)` are embedded as `Nat × String` pairs and the
attribute accesses `pinfo.pid` / `pinfo.name` in `hang_analyzer.py` are read
as the first / second component of such a pair.
-/

namespace HangAnalyzer

/-! ## String primitives

Character-list based embeddings of the Python string operations the
analyzer uses (`str.lower`, `str.startswith`, `in`, glob suffix tests).
They are defined on `List Char` so that every definition reduces inside the
kernel; lower-casing is the ASCII lowering performed by `Char.toLower`. -/

/-- Embedding of Python's `str.lower()` (ASCII range). -/
def strToLower (s : String) : String :=
  String.mk (s.toList.map Char.toLower)

/-- Embedding of Python's `str.startswith(pat)`. -/
def strStartsWith (s pat : String) : Bool :=
  pat.toList.isPrefixOf s.toList

/-- Embedding of Python's `str.endswith(pat)`. -/
def strEndsWith (s pat : String) : Bool :=
  pat.toList.isSuffixOf s.toList

theorem strToLower_mongod : strToLower "MongoD" = "mongod" := by decide

/-! ## `os.path.splitext`

Embedding of CPython's `posixpath.splitext` (`extsep = '.'`, `sep = '/'`):
the string is split at its last dot, provided that dot comes after the last
path separator and that the part of the final path component before the dot
is not made up entirely of dots (so leading dots of a basename, as in
`.bashrc`, never start an extension). -/

/-- Split a character list at its last `'.'`: returns `some (before, fromDot)`
where `fromDot` starts with the last dot, or `none` when no dot occurs. -/
def splitLastDot : List Char → Option (List Char × List Char)
  | [] => none
  | c :: cs =>
    match splitLastDot cs with
    | some (a, b) => some (c :: a, b)
    | none => if c = '.' then some ([], c :: cs) else none

/-- Embedding of `os.path.splitext` (POSIX flavour). -/
def splitext (s : String) : String × String :=
  match splitLastDot s.toList with
  | none => (s, "")
  | some (a, b) =>
    if b.contains '/' then (s, "")
    else if (a.reverse.takeWhile (fun c => c ≠ '/')).any (fun c => c ≠ '.') then
      (String.mk a, String.mk b)
    else (s, "")

theorem splitext_simple : splitext "mongod.exe" = ("mongod", ".exe") := by decide

theorem splitext_no_ext : splitext "mongod" = ("mongod", "") := by decide

theorem splitext_hidden : splitext ".bashrc" = (".bashrc", "") := by decide

theorem splitext_two_dots : splitext "a.tar.gz" = ("a.tar", ".gz") := by decide

/-! ## `process_list._pname_match` and `process_list.get_processes` -/

/-- Embedding of Python's substring test `ip in pname` (used by
`_pname_match` in `contains` mode). -/
def strContains (s pat : String) : Bool :=
  decide (pat.toList <:+: s.toList)

/-- Embedding of `process_list._pname_match`: the candidate name is
extension-stripped, then compared against every interesting process name
under the configured match type (`"exact"`: equality, `"contains"`:
substring). -/
def pnameMatch (matchType : String) (pname : String)
    (interestingProcesses : List String) : Bool :=
  let pname := (splitext pname).1
  interestingProcesses.any (fun ip =>
    (matchType == "exact" && pname == ip) ||
    (matchType == "contains" && strContains pname ip))

/-- Result of `process_list.get_processes`: the matched `(pid, name)` list and
the pids reported by the missing-pids warning (Python logs
`set(process_ids) - running_pids`; we keep the requested order, duplicates
included, which has the same membership). -/
structure ProcResult where
  matched : List (Nat × String)
  missingPids : List Nat
  deriving Repr, DecidableEq

/-- Embedding of `process_list.get_processes`.  `allProcesses` is the process
table produced by the OS-specific lister, `selfPid` is `os.getpid()`.
Names are canonicalized to lower case; a non-empty `processIds` list selects
the explicit-pid branch (Python's truthiness test `if process_ids:`). -/
def get_processes (allProcesses : List (Nat × String)) (processIds : List Nat)
    (interestingProcesses : List String) (processMatch : String)
    (selfPid : Nat) : ProcResult :=
  let all := allProcesses.map (fun q => (q.1, strToLower q.2))
  if processIds.isEmpty then
    { matched := all.filter (fun q =>
        pnameMatch processMatch q.2 interestingProcesses && q.1 != selfPid)
      missingPids := [] }
  else
    let runningPids := all.map Prod.fst
    { matched := all.filter (fun q =>
        processIds.contains q.1 && q.1 != selfPid)
      missingPids := processIds.filter (fun pid => !runningPids.contains pid) }

theorem get_processes_scenario1 :
    (get_processes [(100, "mongod"), (200, "python3"), (300, "java")] []
      ["mongod", "python", "java"] "contains" 400).matched
      = [(100, "mongod"), (200, "python3"), (300, "java")] := by decide

theorem get_processes_scenario3 :
    (get_processes [(100, "mongod"), (200, "python3")] [100, 999]
      ["mongod"] "contains" 100)
      = ⟨[], [999]⟩ := by decide

/-- Specialization of `pnameMatch` to the `"exact"` match type. -/
theorem pnameMatch_exact (pname : String) (itp : List String) :
    pnameMatch "exact" pname itp
      = itp.any (fun ip => (splitext pname).1 == ip) := by
  simp [pnameMatch, (by decide : (("exact" : String) == "contains") = false),
    (by decide : (("exact" : String) == "exact") = true)]

/-- Specialization of `pnameMatch` to the `"contains"` match type. -/
theorem pnameMatch_contains (pname : String) (itp : List String) :
    pnameMatch "contains" pname itp
      = itp.any (fun ip => strContains (splitext pname).1 ip) := by
  simp [pnameMatch, (by decide : (("contains" : String) == "exact") = false),
    (by decide : (("contains" : String) == "contains") = true)]

/-- The name-matching branch of `get_processes`, as a filter over the
lower-cased enumeration. -/
theorem get_processes_name_branch (all : List (Nat × String))
    (itp : List String) (pm : String) (selfPid : Nat) :
    (get_processes all [] itp pm selfPid).matched
      = (all.map (fun q => (q.1, strToLower q.2))).filter
          (fun q => pnameMatch pm q.2 itp && q.1 != selfPid) := rfl

/-- The explicit-pid branch of `get_processes`. -/
theorem get_processes_pid_branch (all : List (Nat × String)) (a : Nat)
    (ids : List Nat) (itp : List String) (pm : String) (selfPid : Nat) :
    get_processes all (a :: ids) itp pm selfPid
      = { matched := (all.map (fun q => (q.1, strToLower q.2))).filter
            (fun q => (a :: ids).contains q.1 && q.1 != selfPid)
          missingPids := (a :: ids).filter
            (fun pid => !((all.map (fun q => (q.1, strToLower q.2))).map
              Prod.fst).contains pid) } := rfl

/-- C2: with a non-empty explicit pid list, the matched result is exactly the
(lower-cased) enumerated records whose pid is requested and differs from the
analyzer's own pid, and the missing-pids warning reports exactly the
requested pids that are not among the running pids — computed without
affecting the matched result. -/
theorem explicit_pid_matching (all : List (Nat × String)) (ids : List Nat)
    (itp : List String) (pm : String) (selfPid : Nat) (hne : ids ≠ []) :
    (∀ q : Nat × String,
        q ∈ (get_processes all ids itp pm selfPid).matched
          ↔ q ∈ all.map (fun r => (r.1, strToLower r.2))
              ∧ q.1 ∈ ids ∧ q.1 ≠ selfPid)
    ∧ (∀ pid : Nat,
        pid ∈ (get_processes all ids itp pm selfPid).missingPids
          ↔ pid ∈ ids
              ∧ pid ∉ (all.map (fun r => (r.1, strToLower r.2))).map Prod.fst) := by
  match ids with
  | [] => exact absurd rfl hne
  | a :: ids =>
    rw [get_processes_pid_branch]
    constructor
    · intro q
      simp [List.mem_filter]
    · intro pid
      simp [List.mem_filter]

/-- Witness for `explicit_pid_matching`. -/
theorem explicit_pid_matching_witness :
    ([100, 999] : List Nat) ≠ []
    ∧ ((100, "mongod")
        ∈ (get_processes [(100, "MongoD"), (200, "python3")] [100, 999]
            ["x"] "exact" 7).matched
      ↔ (100, "mongod")
          ∈ ([(100, "MongoD"), (200, "python3")].map
              (fun r => (r.1, strToLower r.2)))
          ∧ 100 ∈ ([100, 999] : List Nat) ∧ 100 ≠ 7)
    ∧ (999 ∈ (get_processes [(100, "MongoD"), (200, "python3")] [100, 999]
            ["x"] "exact" 7).missingPids
      ↔ 999 ∈ ([100, 999] : List Nat)
          ∧ 999 ∉ (([(100, "MongoD"), (200, "python3")].map
              (fun r => (r.1, strToLower r.2))).map Prod.fst)) :=
  have h := explicit_pid_matching [(100, "MongoD"), (200, "python3")]
    [100, 999] ["x"] "exact" 7 (by decide)
  ⟨by decide, h.1 (100, "mongod"), h.2 999⟩

/-- C3: with no explicit pids, a lower-cased enumerated record is matched in
`"exact"` mode iff its extension-stripped name equals some pattern and its
pid is not the analyzer's own pid, and in `"contains"` mode iff some pattern
occurs as a substring of that stripped name and its pid is not the
analyzer's own pid. -/
theorem name_match_modes (all : List (Nat × String)) (itp : List String)
    (selfPid pid : Nat) (name : String) (h : (pid, name) ∈ all) :
    ((pid, strToLower name) ∈ (get_processes all [] itp "exact" selfPid).matched
      ↔ (∃ ip ∈ itp, (splitext (strToLower name)).1 = ip) ∧ pid ≠ selfPid)
    ∧ ((pid, strToLower name)
          ∈ (get_processes all [] itp "contains" selfPid).matched
      ↔ (∃ ip ∈ itp, ip.toList <:+: (splitext (strToLower name)).1.toList)
          ∧ pid ≠ selfPid) := by
  have hmem : (pid, strToLower name)
      ∈ all.map (fun q => (q.1, strToLower q.2)) :=
    List.mem_map.mpr ⟨(pid, name), h, rfl⟩
  constructor
  · rw [get_processes_name_branch, List.mem_filter]
    simp [hmem, pnameMatch_exact, List.any_eq_true]
  · rw [get_processes_name_branch, List.mem_filter]
    simp [hmem, pnameMatch_contains, List.any_eq_true, strContains]

/-- Witness for `name_match_modes`. -/
theorem name_match_modes_witness :
    ((100 : Nat), "MongoD.exe") ∈ [((100 : Nat), "MongoD.exe")]
    ∧ ((100, strToLower "MongoD.exe")
        ∈ (get_processes [(100, "MongoD.exe")] [] ["mongod"] "exact" 7).matched
      ↔ (∃ ip ∈ ["mongod"], (splitext (strToLower "MongoD.exe")).1 = ip)
          ∧ 100 ≠ 7)
    ∧ ((100, strToLower "MongoD.exe")
        ∈ (get_processes [(100, "MongoD.exe")] [] ["ngo"] "contains" 7).matched
      ↔ (∃ ip ∈ ["ngo"],
            ip.toList <:+: (splitext (strToLower "MongoD.exe")).1.toList)
          ∧ 100 ≠ 7) :=
  ⟨by decide,
    (name_match_modes [(100, "MongoD.exe")] ["mongod"] 7 100 "MongoD.exe"
      (by decide)).1,
    (name_match_modes [(100, "MongoD.exe")] ["ngo"] 7 100 "MongoD.exe"
      (by decide)).2⟩

/-- C4: the analyzer's own pid never appears in the matched set, whatever the
match specification (explicit pids or name patterns, any mode). -/
theorem self_pid_excluded (all : List (Nat × String)) (ids : List Nat)
    (itp : List String) (pm : String) (selfPid : Nat) (q : Nat × String)
    (h : q ∈ (get_processes all ids itp pm selfPid).matched) :
    q.1 ≠ selfPid := by
  match ids with
  | [] =>
    rw [get_processes_name_branch, List.mem_filter] at h
    have := h.2
    simp only [Bool.and_eq_true, bne_iff_ne, ne_eq] at this
    exact this.2
  | a :: ids =>
    rw [get_processes_pid_branch, List.mem_filter] at h
    have := h.2
    simp only [Bool.and_eq_true, bne_iff_ne, ne_eq] at this
    exact this.2

/-- Witness for `self_pid_excluded`. -/
theorem self_pid_excluded_witness :
    ((100 : Nat), "mongod")
      ∈ (get_processes [(100, "mongod")] [100] [] "exact" 7).matched
    ∧ (100 : Nat) ≠ 7 :=
  ⟨by decide,
    self_pid_excluded [(100, "mongod")] [100] [] "exact" 7 (100, "mongod")
      (by decide)⟩

/-- C10 counterexample: changing only the letter case of a pattern changes
whether a record is matched — the pattern `"mongod"` matches the enumerated
process `(1, "mongod")`, but the same pattern spelled `"MONGOD"` does not,
because only the process names, not the patterns, are canonicalized to lower
case. -/
theorem pattern_case_counterexample :
    (get_processes [(1, "mongod")] [] ["mongod"] "exact" 99).matched
        = [(1, "mongod")]
    ∧ (get_processes [(1, "mongod")] [] ["MONGOD"] "exact" 99).matched = [] := by
  constructor <;> decide

/-- C10 amended: matching is case-insensitive in the record's name only: two
enumerations whose names agree up to letter case (equal after lower-casing,
with equal pids) produce identical matcher output for every specification
and mode.  Patterns are compared verbatim, so changing a pattern's case can
change the result (see `pattern_case_counterexample`). -/
theorem name_case_insensitive (all1 all2 : List (Nat × String))
    (ids : List Nat) (itp : List String) (pm : String) (selfPid : Nat)
    (h : all1.map (fun q => (q.1, strToLower q.2))
        = all2.map (fun q => (q.1, strToLower q.2))) :
    get_processes all1 ids itp pm selfPid
      = get_processes all2 ids itp pm selfPid := by
  unfold get_processes
  rw [h]

/-- Witness for `name_case_insensitive`. -/
theorem name_case_insensitive_witness :
    ([(1, "MongoD")] : List (Nat × String)).map (fun q => (q.1, strToLower q.2))
        = ([(1, "mongod")] : List (Nat × String)).map
            (fun q => (q.1, strToLower q.2))
    ∧ get_processes [(1, "MongoD")] [] ["mongod"] "exact" 99
        = get_processes [(1, "mongod")] [] ["mongod"] "exact" 99 :=
  ⟨by decide,
    name_case_insensitive [(1, "MongoD")] [(1, "mongod")] [] ["mongod"]
      "exact" 99 (by decide)⟩

/-! ## `hang_analyzer.check_dump_quota`

The working directory is embedded as a list of (file name, byte size)
pairs.  `glob.glob("*." + ext)` matches exactly the entries whose name ends
in `"." ++ ext` and does not start with a dot: Python's glob translates
`*` to "any character sequence" but excludes hidden files (names beginning
with `'.'`) when the pattern itself does not start with a dot. -/

/-- Embedding of `glob.glob("*." + ext)` applied to one directory entry. -/
def globExtMatch (name ext : String) : Bool :=
  !(strStartsWith name ".") && strEndsWith name ("." ++ ext)

/-- Embedding of `hang_analyzer.check_dump_quota`: sum the sizes of the
files matched by `glob.glob("*." + ext)` in the working directory and test
the sum against the quota (in bytes, despite the docstring saying
megabytes — the caller converts first). -/
def check_dump_quota (dirFiles : List (String × Nat)) (quota : Nat)
    (ext : String) : Bool :=
  decide (((dirFiles.filter (fun f => globExtMatch f.1 ext)).map
    Prod.snd).sum ≤ quota)

/-- The spec's wording of the quota predicate: sum of the sizes of all files
whose name ends in the extension, compared against the budget.  Kept
verbatim for comparison with `check_dump_quota`. -/
def specQuotaCheck (dirFiles : List (String × Nat)) (quota : Nat)
    (ext : String) : Bool :=
  decide (((dirFiles.filter (fun f => strEndsWith f.1 ("." ++ ext))).map
    Prod.snd).sum ≤ quota)

/-- C5 counterexample: a hidden file `.core` of size 5 bytes is counted by
the spec's "every file whose name ends in the extension" reading but is
invisible to `glob.glob("*.core")`, so with a budget of 2 bytes the code
returns `true` while the spec's predicate is `false`. -/
theorem quota_hidden_file_counterexample :
    check_dump_quota [(".core", 5)] 2 "core" = true
    ∧ specQuotaCheck [(".core", 5)] 2 "core" = false := by
  constructor <;> decide

/-- C5 amended: the quota check returns `true` iff the sum of the sizes of
the non-hidden files (name not beginning with a dot) whose name ends in
`"." ++ ext` is within the budget; adding such a file that pushes the sum
over the budget flips a subsequent call from `true` to `false`. -/
theorem quota_guard_amended (dirFiles : List (String × Nat)) (quota : Nat)
    (ext : String) (f : String × Nat)
    (hmatch : globExtMatch f.1 ext = true)
    (hover : quota <
      (((dirFiles ++ [f]).filter (fun g => globExtMatch g.1 ext)).map
        Prod.snd).sum) :
    (check_dump_quota dirFiles quota ext = true
      ↔ ((dirFiles.filter (fun g =>
            !(strStartsWith g.1 ".") && strEndsWith g.1 ("." ++ ext))).map
          Prod.snd).sum ≤ quota)
    ∧ check_dump_quota (dirFiles ++ [f]) quota ext = false := by
  constructor
  · simp [check_dump_quota, globExtMatch]
  · simp only [check_dump_quota, decide_eq_false_iff_not, not_le]
    exact hover

/-- Witness for `quota_guard_amended`: scenario 2 of the spec scaled down —
existing dump files total 2 bytes within a 4-byte budget; a further 3-byte
dump pushes the total to 5 and the next quota check fails. -/
theorem quota_guard_amended_witness :
    globExtMatch "b.core" "core" = true
    ∧ 4 < (((([("a.core", 2)] ++ [("b.core", 3)]) : List (String × Nat)).filter
        (fun g => globExtMatch g.1 "core")).map Prod.snd).sum
    ∧ check_dump_quota [("a.core", 2)] 4 "core" = true
    ∧ check_dump_quota ([("a.core", 2)] ++ [("b.core", 3)]) 4 "core" = false :=
  ⟨by decide, by decide, by decide,
    (quota_guard_amended [("a.core", 2)] 4 "core" ("b.core", 3)
      (by decide) (by decide)).2⟩

/-! ## `dumper.py`: tool resolution

Filesystem existence tests (`os.path.exists`) and the system `PATH` search
(`distutils.spawn.find_executable`) are passed in as `fsExists` and
`pathLookup`.  Path joining is embedded as string concatenation with the
platform separator. -/

/-- Embedding of `dumper.find_program` (also defined, identically, in
`process_list.py`): try each of the given directories in order and return
the first existing `dir/prog`; otherwise fall back to the `PATH` lookup. -/
def find_program (prog : String) (paths : List String)
    (fsExists : String → Bool) (pathLookup : String → Option String) :
    Option String :=
  match paths.find? (fun loc => fsExists (loc ++ "/" ++ prog)) with
  | some loc => some (loc ++ "/" ++ prog)
  | none => pathLookup prog

/-- Embedding of `WindowsDumper.__find_debugger`: first a `PATH` lookup via
`spawn.find_executable`; only when that fails, probe the Windows Kits
debugger directories (10, then 8.1, then 8.0) under the Program Files (x86)
root obtained from the shell API. -/
def windowsFindDebugger (debugger rootDir : String)
    (fsExists : String → Bool) (pathLookup : String → Option String) :
    Option String :=
  match pathLookup debugger with
  | some cdb => some cdb
  | none =>
    let debuggerPaths :=
      [rootDir ++ "\\Windows Kits\\10\\Debuggers\\x64",
       rootDir ++ "\\Windows Kits\\8.1\\Debuggers\\x64",
       rootDir ++ "\\Windows Kits\\8.0\\Debuggers\\x64"]
    match debuggerPaths.find? fsExists with
    | some dbgPath => some (dbgPath ++ "\\" ++ debugger)
    | none => none

/-! ## `dumper.py`: dump-file names and debugger command scripts -/

/-- `GDBDumper.get_dump_ext`. -/
def gdbGetDumpExt : String := "core"

/-- `LLDBDumper.get_dump_ext`. -/
def lldbGetDumpExt : String := "core"

/-- `WindowsDumper.get_dump_ext`. -/
def windowsGetDumpExt : String := "mdmp"

/-- The dump file name requested by `GDBDumper.dump_info`:
`"dump_%s.%d.%s" % (process_name, pid, self.get_dump_ext())`. -/
def gdbDumpFileName (processName : String) (pid : Nat) : String :=
  "dump_" ++ processName ++ "." ++ toString pid ++ "." ++ gdbGetDumpExt

/-- The dump file name requested by `LLDBDumper.dump_info`:
`"dump_%s.%d.%s" % (process_name, pid, self.get_dump_ext())`. -/
def lldbDumpFileName (processName : String) (pid : Nat) : String :=
  "dump_" ++ processName ++ "." ++ toString pid ++ "." ++ lldbGetDumpExt

/-- The dump file name requested by `WindowsDumper.dump_info`:
`"dump_%s.%d.%s" % (os.path.splitext(process_name)[0], pid, ext)`. -/
def windowsDumpFileName (processName : String) (pid : Nat) : String :=
  "dump_" ++ (splitext processName).1 ++ "." ++ toString pid ++ "."
    ++ windowsGetDumpExt

/-- The spec's deterministic dump-file naming template
`dump_<base>.<pid>.<ext>`, kept verbatim for comparison with the per-backend
names the code builds. -/
def specDumpFileName (base : String) (pid : Nat) (ext : String) : String :=
  "dump_" ++ base ++ "." ++ toString pid ++ "." ++ ext

/-- The `dump_command` built by `GDBDumper.dump_info`: `"gcore %s"` when a
dump is taken, the empty string otherwise. -/
def gdbDumpCommand (processName : String) (pid : Nat) (takeDump : Bool) :
    String :=
  if takeDump then "gcore " ++ gdbDumpFileName processName pid else ""

/-- The `raw_stacks_commands` block of `GDBDumper.dump_info`; empty when the
process logger has no destination file name. -/
def rawStacksCommands (logFilename : Option String) : List String :=
  match logFilename with
  | none => []
  | some fn =>
    let base := (splitext fn).1
    let ext := (splitext fn).2
    let rawStacksFilename := base ++ "_raw_stacks" ++ ext
    ["echo \\nWriting raw stacks to " ++ rawStacksFilename ++ ".\\n",
     "set logging redirect on",
     "set logging file " ++ rawStacksFilename,
     "set logging on",
     "thread apply all bt",
     "set logging off"]

/-- The ordered GDB command script built by `GDBDumper.dump_info`.
`scriptDir` stands for the directory of `dumper.py`; `isSolaris` selects the
branch that blanks the MongoDB extensions unavailable on Solaris. -/
def gdbCmds (scriptDir processName : String) (pid : Nat) (takeDump : Bool)
    (logFilename : Option String) (isSolaris : Bool) : List String :=
  let gdbDir := scriptDir ++ "/gdb"
  let sourceMongo := "source " ++ gdbDir ++ "/mongo.py"
  let sourceMongoPrinters := "source " ++ gdbDir ++ "/mongo_printers.py"
  let sourceMongoLock :=
    if isSolaris then "" else "source " ++ gdbDir ++ "/mongo_lock.py"
  let mongodbDumpLocks := if isSolaris then "" else "mongodb-dump-locks"
  let mongodbShowLocks := if isSolaris then "" else "mongodb-show-locks"
  let mongodbUniqstack := "mongodb-uniqstack mongodb-bt-if-active"
  let mongodbWaitsforGraph :=
    if isSolaris then ""
    else "mongodb-waitsfor-graph debugger_waitsfor_" ++ processName ++ "_"
      ++ toString pid ++ ".gv"
  let mongodbJavascriptStack :=
    if isSolaris then "" else "mongodb-javascript-stack"
  let mongodDumpSessions := if isSolaris then "" else "mongod-dump-sessions"
  let mongodbDumpMutexes := "mongodb-dump-mutexes"
  ["set interactive-mode off",
   "set print thread-events off",
   "file " ++ processName,
   "attach " ++ toString pid,
   "info sharedlibrary",
   "info threads",
   "set python print-stack full"]
  ++ rawStacksCommands logFilename
  ++ [sourceMongo,
      sourceMongoPrinters,
      sourceMongoLock,
      mongodbUniqstack,
      "set scheduler-locking on",
      gdbDumpCommand processName pid takeDump,
      mongodbDumpLocks,
      mongodbShowLocks,
      mongodbWaitsforGraph,
      mongodbJavascriptStack,
      mongodDumpSessions,
      mongodbDumpMutexes,
      "set confirm off",
      "quit"]

/-- Embedding of `GDBDumper.dump_info` as the list of external tool
invocations (argument vectors) it performs.  When the debugger cannot be
located it logs a warning and performs no invocation (the early `return`);
otherwise it runs `gdb --version` and then the command script. -/
def gdbDumpInfo (dbgPath : Option String) (scriptDir processName : String)
    (pid : Nat) (takeDump : Bool) (logFilename : Option String)
    (isSolaris : Bool) : List (List String) :=
  match dbgPath with
  | none => []
  | some dbg =>
    [[dbg, "--version"],
     [dbg, "--quiet", "--nx"]
       ++ (gdbCmds scriptDir processName pid takeDump logFilename
          isSolaris).flatMap (fun b => ["-ex", b])]

/-- The `dump_command` built by `WindowsDumper.dump_info`. -/
def windowsDumpCommand (processName : String) (pid : Nat) (takeDump : Bool) :
    String :=
  if takeDump then ".dump /ma " ++ windowsDumpFileName processName pid else ""

/-- The CDB command script built by `WindowsDumper.dump_info`. -/
def windowsCmds (processName : String) (pid : Nat) (takeDump : Bool) :
    List String :=
  [".symfix",
   ".symopt +0x10",
   ".reload",
   "!peb",
   "lm",
   windowsDumpCommand processName pid takeDump,
   "!uniqstack -pn",
   "!cs -l",
   ".detach",
   "q"]

/-- Embedding of `WindowsDumper.dump_info` as the list of tool invocations
it performs: none when the debugger is not found, otherwise a single CDB
call with the `;`-joined command script. -/
def windowsDumpInfo (dbgPath : Option String) (processName : String)
    (pid : Nat) (takeDump : Bool) : List (List String) :=
  match dbgPath with
  | none => []
  | some dbg =>
    [[dbg, "-c", String.intercalate ";" (windowsCmds processName pid takeDump),
      "-p", toString pid]]

/-- Embedding of `JstackDumper.dump_info` as the list of tool invocations it
performs: none when `jstack` is not found, otherwise `jstack -l <pid>`. -/
def jstackDumpInfo (jstackPath : Option String) (pid : Nat) :
    List (List String) :=
  match jstackPath with
  | none => []
  | some jstack => [[jstack, "-l", toString pid]]

/-- The `take_dump` argument computed by `HangAnalyzer.execute` for the
native-debugger invocation:
`self.options.dump_core and check_dump_quota(max_dump_size_bytes, dumpers.dbg.get_dump_ext())`. -/
def takeDumpArg (dumpCore : Bool) (dirFiles : List (String × Nat))
    (maxDumpSizeBytes : Nat) (ext : String) : Bool :=
  dumpCore && check_dump_quota dirFiles maxDumpSizeBytes ext

/-- C6: when the core-dump flag is set but the quota check reports the
budget exceeded, `take_dump` is `false`, the GDB backend is still invoked
(version call plus command script), its command script factors as a fixed
prefix and suffix around the dump-command slot — with the attach and
stack-extraction commands in the prefix — and the dump-command slot is the
empty string, so no `gcore` command is issued. -/
theorem quota_exceeded_still_extracts (dirFiles : List (String × Nat))
    (maxBytes : Nat) (dbg scriptDir processName : String) (pid : Nat)
    (logF : Option String)
    (hquota : check_dump_quota dirFiles maxBytes gdbGetDumpExt = false) :
    takeDumpArg true dirFiles maxBytes gdbGetDumpExt = false
    ∧ (gdbDumpInfo (some dbg) scriptDir processName pid
        (takeDumpArg true dirFiles maxBytes gdbGetDumpExt) logF
        false).length = 2
    ∧ (∃ pre suf,
        (∀ td, gdbCmds scriptDir processName pid td logF false
            = pre ++ gdbDumpCommand processName pid td :: suf)
        ∧ ("attach " ++ toString pid) ∈ pre
        ∧ "info threads" ∈ pre
        ∧ "mongodb-uniqstack mongodb-bt-if-active" ∈ pre)
    ∧ gdbDumpCommand processName pid
        (takeDumpArg true dirFiles maxBytes gdbGetDumpExt) = "" := by
  have htd : takeDumpArg true dirFiles maxBytes gdbGetDumpExt = false := by
    simp [takeDumpArg, hquota]
  refine ⟨htd, rfl, ?_, by rw [htd]; rfl⟩
  refine ⟨["set interactive-mode off", "set print thread-events off",
      "file " ++ processName, "attach " ++ toString pid,
      "info sharedlibrary", "info threads", "set python print-stack full"]
      ++ rawStacksCommands logF
      ++ ["source " ++ (scriptDir ++ "/gdb") ++ "/mongo.py",
          "source " ++ (scriptDir ++ "/gdb") ++ "/mongo_printers.py",
          "source " ++ (scriptDir ++ "/gdb") ++ "/mongo_lock.py",
          "mongodb-uniqstack mongodb-bt-if-active",
          "set scheduler-locking on"],
    ["mongodb-dump-locks", "mongodb-show-locks",
     "mongodb-waitsfor-graph debugger_waitsfor_" ++ processName ++ "_"
       ++ toString pid ++ ".gv",
     "mongodb-javascript-stack", "mongod-dump-sessions",
     "mongodb-dump-mutexes", "set confirm off", "quit"],
    ?_, ?_, ?_, ?_⟩
  · intro td
    simp [gdbCmds]
  · simp
  · simp
  · simp

/-- Witness for `quota_exceeded_still_extracts`: one 5-byte core file
already exceeds a 2-byte budget, yet the GDB backend still runs with an
empty dump-command slot. -/
theorem quota_exceeded_still_extracts_witness :
    check_dump_quota [("a.core", 5)] 2 gdbGetDumpExt = false
    ∧ takeDumpArg true [("a.core", 5)] 2 gdbGetDumpExt = false
    ∧ (gdbDumpInfo (some "/usr/bin/gdb") "/s" "mongod" 42
        (takeDumpArg true [("a.core", 5)] 2 gdbGetDumpExt) none
        false).length = 2
    ∧ gdbDumpCommand "mongod" 42
        (takeDumpArg true [("a.core", 5)] 2 gdbGetDumpExt) = "" :=
  have h := quota_exceeded_still_extracts [("a.core", 5)] 2 "/usr/bin/gdb"
    "/s" "mongod" 42 none (by decide)
  ⟨by decide, h.1, h.2.1, h.2.2.2⟩

/-- C8 counterexample: the Windows native backend resolves its tool through
the system `PATH` *first*.  Here the well-known Windows Kits 10 debugger
directory exists, yet the resolver returns the `PATH` result, contradicting
"well-known installation directories first, `PATH` only afterwards". -/
theorem tool_resolution_counterexample :
    windowsFindDebugger "cdb.exe" "C:\\pf"
        (fun p => p == "C:\\pf\\Windows Kits\\10\\Debuggers\\x64")
        (fun _ => some "C:\\elsewhere\\cdb.exe")
      = some "C:\\elsewhere\\cdb.exe"
    ∧ ("C:\\elsewhere\\cdb.exe" : String)
        ≠ "C:\\pf\\Windows Kits\\10\\Debuggers\\x64\\cdb.exe" := by
  constructor <;> decide

/-- C8 amended: the POSIX resolver `find_program` (used by the GDB, LLDB and
jstack backends) searches its well-known directories in order first and
falls back to the `PATH` lookup only when none of them has the tool; the
Windows native backend instead consults the `PATH` first and only then its
well-known Windows Kits directories.  In every backend, when the tool cannot
be located, a tool-not-found warning is logged and no tool invocation is
performed (the embeddings return the empty invocation list, and, being
total functions, raise nothing). -/
theorem tool_resolution_amended (prog : String) (paths : List String)
    (fsExists : String → Bool) (pathLookup : String → Option String)
    (debugger rootDir scriptDir processName : String) (pid : Nat)
    (logF : Option String) :
    (∀ loc, paths.find? (fun l => fsExists (l ++ "/" ++ prog)) = some loc →
        find_program prog paths fsExists pathLookup
          = some (loc ++ "/" ++ prog))
    ∧ (paths.find? (fun l => fsExists (l ++ "/" ++ prog)) = none →
        find_program prog paths fsExists pathLookup = pathLookup prog)
    ∧ (∀ c, pathLookup debugger = some c →
        windowsFindDebugger debugger rootDir fsExists pathLookup = some c)
    ∧ gdbDumpInfo none scriptDir processName pid true logF false = []
    ∧ jstackDumpInfo none pid = []
    ∧ windowsDumpInfo none processName pid true = [] := by
  refine ⟨?_, ?_, ?_, rfl, rfl, rfl⟩
  · intro loc hloc
    simp [find_program, hloc]
  · intro hnone
    simp [find_program, hnone]
  · intro c hc
    simp [windowsFindDebugger, hc]

/-- Witness for `tool_resolution_amended`: a filesystem where only
`/usr/bin/gdb` exists resolves through the second well-known directory, and
a `PATH` hit short-circuits the Windows Kits probing. -/
theorem tool_resolution_amended_witness :
    (["/opt/mongodbtoolchain/gdb/bin", "/usr/bin"].find?
        (fun l => (fun p => p == "/usr/bin/gdb") (l ++ "/" ++ "gdb"))
        = some "/usr/bin")
    ∧ find_program "gdb" ["/opt/mongodbtoolchain/gdb/bin", "/usr/bin"]
        (fun p => p == "/usr/bin/gdb") (fun _ => some "/path/gdb")
        = some ("/usr/bin" ++ "/" ++ "gdb")
    ∧ ((fun _ : String => some "C:\\x\\cdb.exe") "cdb.exe"
        = some "C:\\x\\cdb.exe")
    ∧ windowsFindDebugger "cdb.exe" "C:\\pf" (fun _ => true)
        (fun _ => some "C:\\x\\cdb.exe") = some "C:\\x\\cdb.exe" :=
  have h := tool_resolution_amended "gdb"
    ["/opt/mongodbtoolchain/gdb/bin", "/usr/bin"]
    (fun p => p == "/usr/bin/gdb") (fun _ => some "/path/gdb")
    "cdb.exe" "C:\\pf" "/s" "mongod" 1 none
  have hw := tool_resolution_amended "cdb.exe" []
    (fun _ => true) (fun _ : String => some "C:\\x\\cdb.exe")
    "cdb.exe" "C:\\pf" "/s" "mongod" 1 none
  ⟨by decide, h.1 "/usr/bin" (by decide), rfl,
    hw.2.2.1 "C:\\x\\cdb.exe" rfl⟩

/-- C9 counterexample: the GDB backend does not strip the process name's
extension when building the dump file name — for process name `"foo.bar"`
and pid 7 it requests `dump_foo.bar.7.core`, while the claimed template with
the extension-stripped base name would give `dump_foo.7.core`. -/
theorem dump_name_counterexample :
    gdbDumpFileName "foo.bar" 7 = "dump_foo.bar.7.core"
    ∧ specDumpFileName (splitext "foo.bar").1 7 gdbGetDumpExt
        = "dump_foo.7.core"
    ∧ gdbDumpFileName "foo.bar" 7
        ≠ specDumpFileName (splitext "foo.bar").1 7 gdbGetDumpExt := by
  refine ⟨by decide, by decide, by decide⟩

/-- C9 amended: every native backend names its dump file by the template
`dump_<base>.<pid>.<ext>` with its fixed per-OS extension, where the base is
the extension-stripped process name on Windows but the *unstripped* process
name for the GDB (Linux/Solaris) and LLDB (macOS) backends. -/
theorem dump_name_amended (processName : String) (pid : Nat) :
    windowsDumpFileName processName pid
        = specDumpFileName (splitext processName).1 pid windowsGetDumpExt
    ∧ gdbDumpFileName processName pid
        = specDumpFileName processName pid gdbGetDumpExt
    ∧ lldbDumpFileName processName pid
        = specDumpFileName processName pid lldbGetDumpExt :=
  ⟨rfl, rfl, rfl⟩

/-! ## `HangAnalyzer.execute`: the dispatch loop

The loop body is embedded with the two fallible backends abstracted as
outcome functions `(pid, name) → Except String Unit`: `.error tb` stands
for `dump_info` raising an exception whose formatted traceback is `tb`,
which `execute` catches and appends to `trapped_exceptions`.  The
signal-based stages (`signal_event_object` / `signal_process` for python
processes, `signal_process` with `SIGABRT` for go processes) swallow their
delivery errors internally and never contribute a failure record, so they
are embedded as the lists of processes they signal.  `pinfo.pid` and
`pinfo.name` are the components of the `(pid, name)` pair.

Note on call-site reconciliation: this snapshot is mid-refactor — the
`Dumper.dump_info` signatures take `pid, process_name, take_dump` as
separate parameters while `execute` passes the `(pid, name)` pair `pinfo`
positionally, accesses `.pid`/`.name` on plain tuples, and reads
`.dbg`/`.jstack` off the two-element list returned by `get_dumpers()`.
The embedding reads these call sites according to the documented intent:
the pair's components are the pid and the name, the two dumpers are the
native and jstack backends, and the boolean expression built at the native
call site is the `take_dump` argument (see `takeDumpArg`). -/

/-- Embedding of the test `re.match("^(java|python)", pinfo.name)`: the
anchored alternation matches exactly the names starting with `"java"` or
`"python"`. -/
def reMatchJavaPython (name : String) : Bool :=
  strStartsWith name "java" || strStartsWith name "python"

/-- One `for`/`try`/`except` category loop of `HangAnalyzer.execute`:
returns the processes for which a backend invocation was attempted (all of
them, in order) and the trapped exception records, in order. -/
def dispatchCategory (outcome : Nat × String → Except String Unit) :
    List (Nat × String) → List (Nat × String) × List String
  | [] => ([], [])
  | p :: rest =>
    let r := dispatchCategory outcome rest
    match outcome p with
    | .ok _ => (p :: r.1, r.2)
    | .error e => (p :: r.1, e :: r.2)

/-- `true` iff the outcome stands for a raised exception. -/
def isFailure (r : Except String Unit) : Bool :=
  match r with
  | .error _ => true
  | .ok _ => false

/-- The observable result of one `HangAnalyzer.execute` run past process
discovery. -/
structure ExecuteResult where
  pythonSignaled : List (Nat × String)
  dbgAttempts : List (Nat × String)
  jstackAttempts : List (Nat × String)
  goSignaled : List (Nat × String)
  trapped : List String
  exitCode : Nat
  deriving Repr, DecidableEq

/-- Embedding of the dispatch portion of `HangAnalyzer.execute`: python
processes are signalled first; every process whose name does not match
`^(java|python)` goes through the native debugger backend inside
`try`/`except`; every process whose name starts with `"java"` goes through
the jstack backend inside `try`/`except`; every process whose name is in
`self.go_processes` is sent `SIGABRT` last; finally the trapped exceptions
are reported and the exit code is 1 exactly when there are any. -/
def executeRun (processes : List (Nat × String)) (goProcesses : List String)
    (dbgOutcome jstackOutcome : Nat × String → Except String Unit) :
    ExecuteResult :=
  let native :=
    dispatchCategory dbgOutcome
      (processes.filter (fun p => !reMatchJavaPython p.2))
  let java :=
    dispatchCategory jstackOutcome
      (processes.filter (fun p => strStartsWith p.2 "java"))
  let trapped := native.2 ++ java.2
  { pythonSignaled := processes.filter (fun p => strStartsWith p.2 "python")
    dbgAttempts := native.1
    jstackAttempts := java.1
    goSignaled := processes.filter (fun p => goProcesses.contains p.2)
    trapped := trapped
    exitCode := if trapped.isEmpty then 0 else 1 }

/-- A category loop attempts every process of its list, in order, no matter
which invocations fail. -/
theorem dispatchCategory_attempts_all
    (outcome : Nat × String → Except String Unit)
    (l : List (Nat × String)) : (dispatchCategory outcome l).1 = l := by
  induction l with
  | nil => rfl
  | cons p rest ih =>
    simp only [dispatchCategory]
    cases outcome p <;> simp [ih]

/-- A category loop traps exactly one record per failing invocation. -/
theorem dispatchCategory_trapped_count
    (outcome : Nat × String → Except String Unit)
    (l : List (Nat × String)) :
    (dispatchCategory outcome l).2.length
      = l.countP (fun p => isFailure (outcome p)) := by
  induction l with
  | nil => rfl
  | cons p rest ih =>
    simp only [dispatchCategory, List.countP_cons]
    cases h : outcome p <;> simp [isFailure, h, ih]

/-- C1: over any matched process list, if the backend invocations raise for
exactly K processes (counted over the native-debugger and jstack
categories, the only ones whose failures can be trapped), then exactly K
failure records are accumulated, every process of every category is still
attempted (or signalled) regardless of the failures, and the exit code is
non-zero iff K > 0. -/
theorem dispatch_fault_isolation (processes : List (Nat × String))
    (goProcesses : List String)
    (dbgOutcome jstackOutcome : Nat × String → Except String Unit) :
    (executeRun processes goProcesses dbgOutcome jstackOutcome).trapped.length
        = (processes.filter (fun p => !reMatchJavaPython p.2)).countP
            (fun p => isFailure (dbgOutcome p))
          + (processes.filter (fun p => strStartsWith p.2 "java")).countP
              (fun p => isFailure (jstackOutcome p))
    ∧ (executeRun processes goProcesses dbgOutcome jstackOutcome).dbgAttempts
        = processes.filter (fun p => !reMatchJavaPython p.2)
    ∧ (executeRun processes goProcesses dbgOutcome
        jstackOutcome).jstackAttempts
        = processes.filter (fun p => strStartsWith p.2 "java")
    ∧ (executeRun processes goProcesses dbgOutcome
        jstackOutcome).pythonSignaled
        = processes.filter (fun p => strStartsWith p.2 "python")
    ∧ (executeRun processes goProcesses dbgOutcome jstackOutcome).goSignaled
        = processes.filter (fun p => goProcesses.contains p.2)
    ∧ ((executeRun processes goProcesses dbgOutcome jstackOutcome).exitCode
          ≠ 0
        ↔ 0 < (executeRun processes goProcesses dbgOutcome
            jstackOutcome).trapped.length) := by
  refine ⟨?_, dispatchCategory_attempts_all _ _,
    dispatchCategory_attempts_all _ _, rfl, rfl, ?_⟩
  · simp [executeRun, dispatchCategory_trapped_count]
  · simp only [executeRun]
    rcases h : (dispatchCategory dbgOutcome
        (processes.filter (fun p => !reMatchJavaPython p.2))).2
        ++ (dispatchCategory jstackOutcome
          (processes.filter (fun p => strStartsWith p.2 "java"))).2 with _ | ⟨a, l⟩
    · simp [h]
    · simp [h]

/-- No process name starts with both `"java"` and `"python"`: the three
name classifications of the dispatch loop are mutually exclusive. -/
theorem not_startsWith_java_and_python (s : String) :
    ¬(strStartsWith s "java" = true ∧ strStartsWith s "python" = true) := by
  rintro ⟨hj, hp⟩
  rw [strStartsWith, List.isPrefixOf_iff_prefix] at hj hp
  rcases List.prefix_or_prefix_of_prefix hj hp with h | h
  · exact absurd h (by decide)
  · exact absurd h (by decide)

/-- C7 counterexample: a go process — here `(1, "gotest")` with
`go_processes = ["gotest"]` — is routed to the native-debugger category
(its name does not match `^(java|python)`) *and* receives the destructive
SIGABRT of the go category in the same run, so one process receives the
actions of two categories rather than first-match-wins. -/
theorem category_overlap_counterexample :
    ((1, "gotest")
        ∈ (executeRun [(1, "gotest")] ["gotest"] (fun _ => Except.ok ())
            (fun _ => Except.ok ())).dbgAttempts)
    ∧ ((1, "gotest")
        ∈ (executeRun [(1, "gotest")] ["gotest"] (fun _ => Except.ok ())
            (fun _ => Except.ok ())).goSignaled) := by
  constructor <;> decide

/-- C7 amended: the self-reporting (python), native/default, and JVM (java)
categories partition the matched processes — each matched process is
handled by exactly one of the three, the first in priority order whose name
classification it satisfies — while the destructive-signal go category is
applied last and *in addition*: it signals every matched process whose name
is in the configured go list, even when another category already handled
that process. -/
theorem category_routing_amended (processes : List (Nat × String))
    (goProcesses : List String)
    (dbgOutcome jstackOutcome : Nat × String → Except String Unit)
    (p : Nat × String) (h : p ∈ processes) :
    ((p ∈ (executeRun processes goProcesses dbgOutcome
          jstackOutcome).pythonSignaled
        ∨ p ∈ (executeRun processes goProcesses dbgOutcome
            jstackOutcome).dbgAttempts
        ∨ p ∈ (executeRun processes goProcesses dbgOutcome
            jstackOutcome).jstackAttempts)
      ∧ ¬(p ∈ (executeRun processes goProcesses dbgOutcome
            jstackOutcome).pythonSignaled
          ∧ p ∈ (executeRun processes goProcesses dbgOutcome
              jstackOutcome).dbgAttempts)
      ∧ ¬(p ∈ (executeRun processes goProcesses dbgOutcome
            jstackOutcome).pythonSignaled
          ∧ p ∈ (executeRun processes goProcesses dbgOutcome
              jstackOutcome).jstackAttempts)
      ∧ ¬(p ∈ (executeRun processes goProcesses dbgOutcome
            jstackOutcome).dbgAttempts
          ∧ p ∈ (executeRun processes goProcesses dbgOutcome
              jstackOutcome).jstackAttempts))
    ∧ (p ∈ (executeRun processes goProcesses dbgOutcome
          jstackOutcome).goSignaled
        ↔ goProcesses.contains p.2 = true) := by
  have hall := dispatch_fault_isolation processes goProcesses dbgOutcome
    jstackOutcome
  rw [hall.2.1, hall.2.2.1, hall.2.2.2.1, hall.2.2.2.2.1]
  simp only [List.mem_filter, h, true_and]
  constructor
  · constructor
    · by_cases hj : strStartsWith p.2 "java" = true
      · exact Or.inr (Or.inr hj)
      · by_cases hp : strStartsWith p.2 "python" = true
        · exact Or.inl hp
        · refine Or.inr (Or.inl ?_)
          simp [reMatchJavaPython, hj, hp]
    · refine ⟨?_, ?_, ?_⟩
      · rintro ⟨hp, hn⟩
        simp [reMatchJavaPython, hp] at hn
      · rintro ⟨hp, hj⟩
        exact not_startsWith_java_and_python p.2 ⟨hj, hp⟩
      · rintro ⟨hn, hj⟩
        simp [reMatchJavaPython, hj] at hn
  · exact trivial

/-- Witness for `category_routing_amended`. -/
theorem category_routing_amended_witness :
    ((1 : Nat), "mongod")
        ∈ (executeRun [(1, "mongod")] ["mongod"] (fun _ => Except.ok ())
            (fun _ => Except.ok ())).goSignaled
      ↔ (["mongod"] : List String).contains "mongod" = true :=
  (category_routing_amended [(1, "mongod")] ["mongod"]
    (fun _ => Except.ok ()) (fun _ => Except.ok ()) (1, "mongod")
    (by decide)).2

end HangAnalyzer
